import Mathlib

/-!
Shallow embedding of the AI response service of the Imacall backend
(`backend/app/services/ai_service.py`, `backend/app/api/routes/conversations.py`,
`backend/app/crud/config.py`, `backend/app/models.py`).

Python strings are Lean `String`, nullable strings are `Option String`,
message history is `List Msg`.  Network effects are modelled by passing the
outcome of the (single) transport call as an explicit `ApiOutcome` argument,
and every provider method returns the produced text together with the number
of transport calls it performed.  Python exceptions are modelled by
`PyResult`.
-/

/-- The `MessageSender` enum from `models.py` (values "user" and "ai"). -/
inductive MessageSender where
  | user
  | ai
deriving DecidableEq, Repr

/-- The fields of `models.Message` that the AI service reads. -/
structure Msg where
  sender : MessageSender
  content : String
deriving DecidableEq, Repr

/-- The fields of `models.Character` used by the AI service.  `name` is a
non-nullable column; every other field here is nullable (`str | None`). -/
structure Character where
  name : String
  description : Option String
  greeting_message : Option String
  scenario : Option String
  language : Option String
  personality_traits : Option String
  writing_style : Option String
  background : Option String
  knowledge_scope : Option String
  quirks : Option String
  emotional_range : Option String
  fallback_response : Option String
deriving DecidableEq, Repr

/-- Truthiness of a Python `str | None` value: `None` and `""` are falsy. -/
def pyTruthy (o : Option String) : Bool :=
  match o with
  | none => false
  | some s => !s.isEmpty

/-- Python `o or d` for `o : str | None`: `d` when `o` is `None` or empty. -/
def pyOr (o : Option String) (d : String) : String :=
  match o with
  | none => d
  | some s => if s.isEmpty then d else s

/-- Rendering of a `str | None` value inside a Python f-string:
`None` renders as the literal string "None". -/
def pyStr (o : Option String) : String :=
  match o with
  | none => "None"
  | some s => s

/-- Python expression `character.fallback_response or d`. -/
def fallbackOr (c : Character) (d : String) : String :=
  pyOr c.fallback_response d

/-- Python expression `character.greeting_message or ...` with the f-string
greeting default that names the character. -/
def greetingOr (c : Character) : String :=
  pyOr c.greeting_message ("Hi! I\x27m " ++ c.name ++ ".")

/-- The list built by `AIProvider._build_system_prompt` (and by the identical
`BaseOpenRouterProvider._build_system_prompt`) before `filter(None, ...)`:
an f-string per field, so a `None` field renders as the text "None". -/
def promptParts (c : Character) : List String :=
  [ "You are " ++ c.name ++ ", a character with the following traits:",
    "- Personality: " ++ pyStr c.personality_traits,
    "- Writing Style: " ++ pyStr c.writing_style,
    "- Background: " ++ pyStr c.background,
    "- Knowledge Scope: " ++ pyStr c.knowledge_scope,
    "- Quirks: " ++ pyStr c.quirks,
    "- Emotional Range: " ++ pyStr c.emotional_range,
    "- Scenario: " ++ pyStr c.scenario,
    "- Language: " ++ pyStr c.language,
    "Please embody this character fully in your responses. Be engaging and stay in character." ]

/-- Function `AIProvider._build_system_prompt`, which newline-joins
`filter(None, prompt_parts)`.
`filter(None, ...)` drops exactly the falsy (empty) strings. -/
def buildSystemPrompt (c : Character) : String :=
  String.intercalate "\n" ((promptParts c).filter (fun s => s ≠ ""))

/-- Estimated token count used by `_truncate_history_if_needed`:
`sum(len(msg.content) for msg in history) // 4`. -/
def estTokens (history : List Msg) : Nat :=
  (history.map (fun m => m.content.length)).sum / 4

/-- Value `int(len(history) * 0.75)`: `0.75` and the product are exact in binary
floating point for any realistic length, so this is `3 * n / 4` on `Nat`. -/
def numToKeep (n : Nat) : Nat :=
  3 * n / 4

/-- Python `history[-k:]`.  For `k = 0` the slice `[-0:]` is `[0:]`, i.e. the
whole list; otherwise it is the last `k` elements. -/
def pyTakeLast (history : List Msg) (k : Nat) : List Msg :=
  if k = 0 then history else history.drop (history.length - k)

/-- Method `AIProvider._truncate_history_if_needed` (same body in
`BaseOpenRouterProvider`): keep the last `int(len * 0.75)` messages when the
estimate exceeds `max_tokens`, else return the history unchanged. -/
def truncateHistoryIfNeeded (history : List Msg) (maxTokens : Nat) : List Msg :=
  if estTokens history > maxTokens then
    pyTakeLast history (numToKeep history.length)
  else
    history

/-- One entry of the Gemini-style wire format: a role with a singleton
parts list. -/
structure GeminiEntry where
  role : String
  parts : List String
deriving DecidableEq, Repr

/-- One entry of the OpenAI-style wire format: a role with a content
string. -/
structure OpenAIEntry where
  role : String
  content : String
deriving DecidableEq, Repr

/-- Method `AIProvider._format_history`: role "user" for sender user, else "model";
content goes into the singleton "parts" list; input order is kept. -/
def formatHistory (history : List Msg) : List GeminiEntry :=
  history.map (fun m =>
    ⟨if m.sender = MessageSender.user then "user" else "model", [m.content]⟩)

/-- Method `_format_history_for_openai` (identical in `OpenAIProvider`,
`BaseOpenRouterProvider`, `OldOpenRouterProvider._format_history` and
`FPTAIProvider._format_history`): role "assistant" for sender ai, else
"user"; input order is kept. -/
def formatHistoryForOpenai (history : List Msg) : List OpenAIEntry :=
  history.map (fun m =>
    ⟨if m.sender = MessageSender.ai then "assistant" else "user", m.content⟩)

/-- Outcome of the single transport call a provider makes, standing in for
the mocked network.  `success content` is an HTTP 200 whose extracted text is
`content` (the empty string also models a `None` content field); the other
constructors are the failure modes the providers catch.  For the
`requests`-based providers, `statusError` is a non-200 status (its argument
is assumed different from 200) and the exception constructors are all caught
by their single generic `except` clause. -/
inductive ApiOutcome where
  | success (content : String)
  | timeout
  | connectionError
  | rateLimit
  | statusError (code : Nat)
  | exception
deriving DecidableEq, Repr

/-- Failure modes in the sense of the error-handling contract: every
non-success outcome, plus a success whose content is empty. -/
def ApiOutcome.isFailure : ApiOutcome → Bool
  | .success content => content.isEmpty
  | _ => true

/-- Method `GeminiProvider.get_response`.  The prompt building and truncation do not
affect the returned text; the whole transport interaction is inside a single
`try` whose `except Exception` returns `fallback_response or` a generic
line, and an empty/absent `response.text` takes the same fallback.  Returns
the text and the number of transport calls made. -/
def geminiGetResponse (c : Character) (history : List Msg) (out : ApiOutcome) :
    String × Nat :=
  let _ := truncateHistoryIfNeeded history 30000
  match out with
  | .success content =>
      (if content.isEmpty then
        fallbackOr c ("*" ++ c.name ++ " seems momentarily distracted*")
      else
        content.trim, 1)
  | _ => (fallbackOr c ("*" ++ c.name ++ " seems momentarily distracted*"), 1)

/-- Method `OpenAIProvider.get_response`.  An untruthy `api_key` short-circuits with
an OOC configuration line (0 calls); otherwise one call is made and each
caught exception class returns its own fixed OOC string — none of these
branches consults `character.fallback_response`. -/
def openAIGetResponse (apiKey : Option String) (c : Character)
    (history : List Msg) (out : ApiOutcome) : String × Nat :=
  if !pyTruthy apiKey then
    ("(OOC: Configuration error - API key missing for " ++ c.name ++ ")", 0)
  else
    let _ := formatHistoryForOpenai (truncateHistoryIfNeeded history 160000)
    match out with
    | .success content =>
        (if content.isEmpty then
          "(OOC: " ++ c.name ++ " received an empty response.)"
        else
          content.trim, 1)
    | .timeout => ("(OOC: Sorry, my thoughts got lost in hyperspace... timed out!)", 1)
    | .connectionError =>
        ("(OOC: Hmm, can\x27t seem to connect to the ethereal plane of ideas right now.)", 1)
    | .rateLimit =>
        ("(OOC: Wooah, too many ideas flowing! I need a moment to catch my breath.)", 1)
    | .statusError code =>
        ("(OOC: Uh oh, the universal translator seems to be on the fritz. Status: "
          ++ toString code ++ ")", 1)
    | .exception =>
        ("(OOC: My apologies, a cosmic ray seems to have hit my thinking circuits!)", 1)

/-- Method `BaseOpenRouterProvider.get_response` (shared by the DeepSeek, Sarvam,
Qwen3 and Gemma3 providers, which differ only in `model_name`).  The whole
body is inside one `try`; an untruthy `api_key` returns
`fallback_response or` an OOC configuration line before any call; empty
content and every caught exception return `fallback_response or` a generic
OOC line.  There is no greeting short-circuit: with a truthy key the
transport is always called, whatever the history. -/
def baseOpenRouterGetResponse (apiKey : Option String) (c : Character)
    (history : List Msg) (out : ApiOutcome) : String × Nat :=
  if !pyTruthy apiKey then
    (fallbackOr c ("(OOC: Configuration error - API key missing for " ++ c.name ++ ")"), 0)
  else
    let _ := formatHistoryForOpenai (truncateHistoryIfNeeded history 8000)
    match out with
    | .success content =>
        (if content.isEmpty then
          fallbackOr c ("(OOC: " ++ c.name ++ " received an empty response.)")
        else
          content.trim, 1)
    | .timeout =>
        (fallbackOr c "(OOC: Sorry, my thoughts got lost in hyperspace... timed out!)", 1)
    | .connectionError =>
        (fallbackOr c
          "(OOC: Hmm, can\x27t seem to connect to the ethereal plane of ideas right now.)", 1)
    | .rateLimit =>
        (fallbackOr c
          "(OOC: Wooah, too many ideas flowing! I need a moment to catch my breath.)", 1)
    | .statusError code =>
        (fallbackOr c
          ("(OOC: Uh oh, the universal translator seems to be on the fritz. Status: "
            ++ toString code ++ ")"), 1)
    | .exception =>
        (fallbackOr c
          "(OOC: My apologies, a cosmic ray seems to have hit my thinking circuits!)", 1)

/-- The last user-sent message content, as computed by
`next((msg.content for msg in reversed(history) if msg.sender == USER), None)`
in `OldOpenRouterProvider.get_response` and `FPTAIProvider.get_response`. -/
def lastUserMessageContent (history : List Msg) : Option String :=
  (history.reverse.find? (fun m => m.sender = MessageSender.user)).map (fun m => m.content)

/-- Method `OldOpenRouterProvider.get_response` (deprecated `requests`-based
provider).  If the last user message content is falsy (no user-sent message,
or its content is empty), it short-circuits to
`greeting_message or` the default f-string greeting, with no transport
call.  Otherwise
one call: non-200 status and empty content produce OOC error lines naming
the character, and any exception the generic OOC error line. -/
def oldOpenRouterGetResponse (c : Character) (history : List Msg)
    (out : ApiOutcome) : String × Nat :=
  if !pyTruthy (lastUserMessageContent history) then
    (greetingOr c, 0)
  else
    match out with
    | .success content =>
        (if content.isEmpty then
          "(OOC: Sorry, I received an empty response when trying to respond as "
            ++ c.name ++ ".)"
        else
          content.trim, 1)
    | .statusError code =>
        ("(OOC: Sorry, I encountered an error trying to respond as " ++ c.name
          ++ ". API returned status " ++ toString code ++ ".)", 1)
    | _ =>
        ("(OOC: Sorry, I encountered an error trying to respond as " ++ c.name ++ ".)", 1)

/-- Method `FPTAIProvider.get_response` is structurally identical to the old
OpenRouter provider (greeting short-circuit, `requests` transport, same OOC
error strings). -/
def fptaiGetResponse (c : Character) (history : List Msg)
    (out : ApiOutcome) : String × Nat :=
  if !pyTruthy (lastUserMessageContent history) then
    (greetingOr c, 0)
  else
    match out with
    | .success content =>
        (if content.isEmpty then
          "(OOC: Sorry, I received an empty response when trying to respond as "
            ++ c.name ++ ".)"
        else
          content.trim, 1)
    | .statusError code =>
        ("(OOC: Sorry, I encountered an error trying to respond as " ++ c.name
          ++ ". API returned status " ++ toString code ++ ".)", 1)
    | _ =>
        ("(OOC: Sorry, I encountered an error trying to respond as " ++ c.name ++ ".)", 1)


/-- Result of a Python call: a normal return or a raised exception carrying
its message. -/
inductive PyResult (α : Type) where
  | ok : α → PyResult α
  | exc : String → PyResult α
deriving DecidableEq, Repr

/-- Predicate `PyResult.isOk`. -/
def PyResult.isOk {α : Type} : PyResult α → Bool
  | .ok _ => true
  | .exc _ => false

/-- The keys of the `SUPPORTED_PROVIDERS` dict, in insertion order. -/
def SUPPORTED_PROVIDER_NAMES : List String :=
  ["gemini", "openai", "claude", "fptai",
   "deepseek-r1", "sarvam", "deepseek-chat", "qwen3", "gemma3"]

/-- Module-level `_DEFAULT_PROVIDER_NAME = "gemini"`. -/
def DEFAULT_PROVIDER_NAME : String := "gemini"

/-- The persisted `AIProviderConfig` singleton row: `none` when the row with
id 1 does not exist, `some name` its `active_provider_name` otherwise. -/
structure DbState where
  config : Option String
deriving DecidableEq, Repr

/-- Function `crud.config.set_ai_provider_config`: upserts the singleton row. -/
def set_ai_provider_config (db : DbState) (providerName : String) : DbState :=
  let _ := db
  ⟨some providerName⟩

/-- The default-selection loop in `_get_active_provider_name_from_db`:
`for potential_default in [settings.DEFAULT_AI_PROVIDER, _DEFAULT_PROVIDER_NAME]:`
with no break, so every supported candidate overwrites the accumulator. -/
def chooseDefaultToSet (settingsDefault : String) : String :=
  List.foldl
    (fun acc potential =>
      if potential ∈ SUPPORTED_PROVIDER_NAMES then potential else acc)
    DEFAULT_PROVIDER_NAME
    [settingsDefault, DEFAULT_PROVIDER_NAME]

/-- Function `_get_active_provider_name_from_db`: returns the stored name when the row
exists and the name is supported; otherwise persists and returns the default
chosen by the loop above.  The first component is the returned name, the
second the database state after the call. -/
def getActiveProviderNameFromDb (settingsDefault : String) (db : DbState) :
    String × DbState :=
  match db.config with
  | some nm =>
      if nm ∈ SUPPORTED_PROVIDER_NAMES then (nm, db)
      else
        let d := chooseDefaultToSet settingsDefault
        (d, set_ai_provider_config db d)
  | none =>
      let d := chooseDefaultToSet settingsDefault
      (d, set_ai_provider_config db d)

/-- What the spec says the default selection is: the first of
(configured default, hardcoded fallback) that is supported. -/
def chooseDefaultSpec (settingsDefault : String) : String :=
  if settingsDefault ∈ SUPPORTED_PROVIDER_NAMES then settingsDefault
  else DEFAULT_PROVIDER_NAME

/-- Lexicographic order on code-point lists, the order used by the Python
built-in `sorted` on strings. -/
def lexLe : List Char → List Char → Bool
  | [], _ => true
  | _ :: _, [] => false
  | x :: xs, y :: ys => if x < y then true else if y < x then false else lexLe xs ys

/-- Comparison `a <= b` for Python strings (code-point order). -/
def strLeB (a b : String) : Bool := lexLe a.data b.data

/-- Comparison `a < b` for Python strings. -/
def strLtB (a b : String) : Bool := strLeB a b && !(a == b)

/-- Truthiness of the per-provider credential settings read by
`get_available_providers` (a key is "present" when the attribute exists and
is a non-empty string). -/
structure Creds where
  gemini : Bool
  openai : Bool
  openrouter : Bool
  anthropic : Bool
  fptai : Bool
deriving DecidableEq, Repr

/-- Function `get_available_providers`: collects the names whose credential is
present (one OpenRouter key enables all five OpenRouter model providers),
then `sorted(list(set(available)))` — the set removes duplicates and
`sorted` is a stable sort by code-point order, modelled here by a structural
insertion sort under `strLeB`. -/
def get_available_providers (s : Creds) : List String :=
  let available :=
    (if s.gemini then ["gemini"] else []) ++
    (if s.openai then ["openai"] else []) ++
    (if s.openrouter then
      ["deepseek-r1", "sarvam", "deepseek-chat", "qwen3", "gemma3"] else []) ++
    (if s.anthropic then ["claude"] else []) ++
    (if s.fptai then ["fptai"] else [])
  (available.dedup).insertionSort (fun a b => strLeB a b = true)

/-- Function `set_active_provider`: raises for an unsupported name, raises for a
supported name whose credentials are absent, and only then persists the new
name (the cache clearing has no observable effect here).  The second
component is the database state after the call: unchanged on either raise. -/
def set_active_provider (name : String) (s : Creds) (db : DbState) :
    PyResult Unit × DbState :=
  if name ∉ SUPPORTED_PROVIDER_NAMES then
    (.exc ("Unsupported AI provider: " ++ name), db)
  else if name ∉ get_available_providers s then
    (.exc ("AI Provider \x27" ++ name
      ++ "\x27 is not configured with necessary API keys/settings."), db)
  else
    (.ok (), set_ai_provider_config db name)

/-- The provider classes registered in `SUPPORTED_PROVIDERS` (the deprecated
`OldOpenRouterProvider` entry is commented out in the source). -/
inductive ProviderKind where
  | gemini
  | openai
  | claude
  | fptai
  | deepseekR1
  | sarvam
  | deepseekChat
  | qwen3
  | gemma3
deriving DecidableEq, Repr

/-- A constructed provider instance, as produced by `get_ai_provider`:
its class and the api key it was constructed with. -/
structure ProviderInst where
  kind : ProviderKind
  apiKey : Option String
deriving DecidableEq, Repr

/-- The virtual dispatch `provider.get_response(character=..., history=...)`.
`ClaudeProvider.get_response` raises `NotImplementedError` unconditionally;
every other implementation returns a string (with its transport call
count). -/
def dispatchGetResponse (p : ProviderInst) (c : Character) (history : List Msg)
    (out : ApiOutcome) : PyResult (String × Nat) :=
  match p.kind with
  | .gemini => .ok (geminiGetResponse c history out)
  | .openai => .ok (openAIGetResponse p.apiKey c history out)
  | .claude => .exc "NotImplementedError: Claude provider is not yet implemented."
  | .fptai => .ok (fptaiGetResponse c history out)
  | .deepseekR1 => .ok (baseOpenRouterGetResponse p.apiKey c history out)
  | .sarvam => .ok (baseOpenRouterGetResponse p.apiKey c history out)
  | .deepseekChat => .ok (baseOpenRouterGetResponse p.apiKey c history out)
  | .qwen3 => .ok (baseOpenRouterGetResponse p.apiKey c history out)
  | .gemma3 => .ok (baseOpenRouterGetResponse p.apiKey c history out)

/-- Function `get_ai_response`: only the `get_ai_provider` call is
inside the `try` — its failure returns `fallback_response or` a generic
line.  The subsequent `provider.get_response(...)` call at the end of the
function body is outside any `try`, so an exception it raises propagates to
the caller.  `providerResult` is the outcome of `get_ai_provider`. -/
def get_ai_response (providerResult : PyResult ProviderInst) (c : Character)
    (history : List Msg) (out : ApiOutcome) : PyResult String :=
  match providerResult with
  | .exc _ =>
      .ok (fallbackOr c "I\x27m having trouble reaching my AI brain at the moment.")
  | .ok p =>
      match dispatchGetResponse p c history out with
      | .ok r => .ok r.1
      | .exc e => .exc e

/-- A row of the `conversation` table, restricted to the columns the delete
endpoint reads. -/
structure Conv where
  id : Nat
  userId : Nat
deriving DecidableEq, Repr

/-- The conversation table. -/
structure ConvDb where
  conversations : List Conv
deriving DecidableEq, Repr

/-- Modelled from the spec: `crud.conversations.get_conversation` is absent
from the provided sources (only its callers are); per §6 it is a lookup of
the conversation row by id. -/
def get_conversation (db : ConvDb) (cid : Nat) : Option Conv :=
  db.conversations.find? (fun c => c.id = cid)

/-- Modelled from the spec: `crud.conversations.delete_conversation` is
absent from the provided sources; per §3/§6 it removes the conversation row
(its messages cascade away with it). -/
def delete_conversation (db : ConvDb) (cid : Nat) : ConvDb :=
  ⟨db.conversations.filter (fun c => c.id ≠ cid)⟩

/-- HTTP outcome of the delete endpoint: 204 No Content, or 403. -/
inductive DeleteOutcome where
  | noContent
  | forbidden
deriving DecidableEq, Repr

/-- Route handler `delete_conversation_route`: a missing conversation returns 204 with no
write ("Idempotent delete: if not found, act as if deleted"); a conversation
owned by someone else returns 403 with no write; otherwise the row is
deleted and 204 returned. -/
def delete_conversation_route (db : ConvDb) (currentUserId : Nat) (cid : Nat) :
    DeleteOutcome × ConvDb :=
  match get_conversation db cid with
  | none => (.noContent, db)
  | some conv =>
      if conv.userId ≠ currentUserId then (.forbidden, db)
      else (.noContent, delete_conversation db cid)

/-!  Helper lemmas. -/

/-- A string with a non-empty prefix is non-empty. -/
theorem append_ne_empty_left (a b : String) (h : a.data ≠ []) : a ++ b ≠ "" := by
  intro he
  apply h
  have hd : (a ++ b).data = ("" : String).data := by rw [he]
  rw [String.data_append] at hd
  have hnil : a.data ++ b.data = [] := by simpa using hd
  exact (List.append_eq_nil.mp hnil).1

/-- The byte data of a string with a non-empty prefix is non-empty. -/
theorem data_append_ne_nil (a b : String) (h : a.data ≠ []) : (a ++ b).data ≠ [] := by
  rw [String.data_append]
  intro hnil
  exact h (List.append_eq_nil.mp hnil).1

/-- Slicing via `pyTakeLast` always returns a suffix. -/
theorem pyTakeLast_suffix (l : List Msg) (k : Nat) : pyTakeLast l k <:+ l := by
  unfold pyTakeLast
  split
  · exact List.suffix_refl l
  · exact List.drop_suffix _ _

/-- Slicing via `pyTakeLast` on a non-empty list is non-empty when the
kept count is at most the length. -/
theorem pyTakeLast_ne_nil (l : List Msg) (k : Nat) (hl : l ≠ [])
    (hk : k ≤ l.length) : pyTakeLast l k ≠ [] := by
  unfold pyTakeLast
  split
  · exact hl
  · rename_i hk0
    intro hnil
    have hlen : (l.drop (l.length - k)).length = k := by
      rw [List.length_drop, Nat.sub_sub_self hk]
    rw [hnil] at hlen
    exact hk0 hlen.symm

/-- Value `int(n * 0.75)` never exceeds `n`. -/
theorem numToKeep_le (n : Nat) : numToKeep n ≤ n := by
  unfold numToKeep
  calc 3 * n / 4 ≤ 3 * n / 3 := Nat.div_le_div_left (by norm_num) (by norm_num)
  _ = n := Nat.mul_div_cancel_left n (by norm_num)

/-- A non-empty suffix has the same last element. -/
theorem getLast?_of_suffix {l s : List Msg} (hs : s <:+ l) (hne : s ≠ []) :
    s.getLast? = l.getLast? := by
  obtain ⟨t, rfl⟩ := hs
  rw [List.getLast?_append]
  rcases hx : s.getLast? with _ | a
  · exact absurd (List.getLast?_eq_none.mp hx) hne
  · rfl

/-- Truncation returns a suffix of its input. -/
theorem truncateHistoryIfNeeded_suffix (history : List Msg) (maxTokens : Nat) :
    truncateHistoryIfNeeded history maxTokens <:+ history := by
  unfold truncateHistoryIfNeeded
  split
  · exact pyTakeLast_suffix _ _
  · exact List.suffix_refl _

/-- Truncation of a non-empty history is non-empty. -/
theorem truncateHistoryIfNeeded_ne_nil (history : List Msg) (maxTokens : Nat)
    (h : history ≠ []) : truncateHistoryIfNeeded history maxTokens ≠ [] := by
  unfold truncateHistoryIfNeeded
  split
  · exact pyTakeLast_ne_nil _ _ h (numToKeep_le _)
  · exact h

/-- A 2001-character message body: 60 of these estimate to 30015 tokens,
just over the 30000 budget. -/
def longContent : String := String.mk (List.replicate 2001 'a')

/-- 60 alternating user/ai messages whose token estimate exceeds the
default truncation budget. -/
def msgs60 : List Msg :=
  (List.range 60).map
    (fun i => ⟨if i % 2 = 0 then MessageSender.user else MessageSender.ai, longContent⟩)

theorem longContent_length : longContent.length = 2001 := by
  show (List.replicate 2001 'a').length = 2001
  rw [List.length_replicate]

theorem msgs60_length : msgs60.length = 60 := by
  unfold msgs60
  simp

theorem estTokens_msgs60 : estTokens msgs60 = 30015 := by
  have hfun : ((fun m : Msg => m.content.length) ∘
      (fun i : Nat => (⟨if i % 2 = 0 then MessageSender.user else MessageSender.ai,
        longContent⟩ : Msg))) = fun _ : Nat => (2001 : Nat) := by
    funext i
    show longContent.length = 2001
    exact longContent_length
  unfold estTokens msgs60
  rw [List.map_map, hfun, List.map_const', List.length_range, List.sum_replicate]
  norm_num

theorem truncate_msgs60 : truncateHistoryIfNeeded msgs60 30000 = msgs60.drop 15 := by
  unfold truncateHistoryIfNeeded pyTakeLast numToKeep
  rw [estTokens_msgs60, msgs60_length]
  norm_num

/-- C6: for every non-empty history, truncation returns a non-empty
contiguous suffix of the input (order preserved) with the same last element;
on 60 messages over budget it keeps exactly 45 messages, strictly fewer
than 60 and more than 0. -/
theorem C6_truncation_never_empty_suffix (history : List Msg) (maxTokens : Nat)
    (h : history ≠ []) :
    truncateHistoryIfNeeded history maxTokens ≠ [] ∧
    truncateHistoryIfNeeded history maxTokens <:+ history ∧
    (truncateHistoryIfNeeded history maxTokens).getLast? = history.getLast? ∧
    ((truncateHistoryIfNeeded msgs60 30000).length = 45 ∧
      0 < (truncateHistoryIfNeeded msgs60 30000).length ∧
      (truncateHistoryIfNeeded msgs60 30000).length < 60 ∧
      (truncateHistoryIfNeeded msgs60 30000).getLast? = msgs60.getLast?) := by
  have hlen : (truncateHistoryIfNeeded msgs60 30000).length = 45 := by
    rw [truncate_msgs60, List.length_drop, msgs60_length]
  have hne60 : msgs60 ≠ [] := by
    intro hnil
    have := msgs60_length
    rw [hnil] at this
    exact absurd this (by norm_num)
  refine ⟨truncateHistoryIfNeeded_ne_nil history maxTokens h,
    truncateHistoryIfNeeded_suffix history maxTokens,
    getLast?_of_suffix (truncateHistoryIfNeeded_suffix history maxTokens)
      (truncateHistoryIfNeeded_ne_nil history maxTokens h),
    hlen, by rw [hlen]; norm_num, by rw [hlen]; norm_num,
    getLast?_of_suffix (truncateHistoryIfNeeded_suffix msgs60 30000)
      (truncateHistoryIfNeeded_ne_nil msgs60 30000 hne60)⟩

/-- Closed witness for `C6_truncation_never_empty_suffix` at a concrete
non-empty history. -/
theorem C6_truncation_never_empty_suffix_witness :
    ([⟨MessageSender.user, "hi"⟩] : List Msg) ≠ [] ∧
    (truncateHistoryIfNeeded [⟨MessageSender.user, "hi"⟩] 30000 ≠ [] ∧
      truncateHistoryIfNeeded [⟨MessageSender.user, "hi"⟩] 30000 <:+
        [⟨MessageSender.user, "hi"⟩] ∧
      (truncateHistoryIfNeeded [⟨MessageSender.user, "hi"⟩] 30000).getLast? =
        ([⟨MessageSender.user, "hi"⟩] : List Msg).getLast? ∧
      ((truncateHistoryIfNeeded msgs60 30000).length = 45 ∧
        0 < (truncateHistoryIfNeeded msgs60 30000).length ∧
        (truncateHistoryIfNeeded msgs60 30000).length < 60 ∧
        (truncateHistoryIfNeeded msgs60 30000).getLast? = msgs60.getLast?)) :=
  ⟨by simp, C6_truncation_never_empty_suffix [⟨MessageSender.user, "hi"⟩] 30000 (by simp)⟩

/-- A character whose optional fields are all NULL. -/
def novaAllNone : Character :=
  ⟨"Nova", none, none, none, none, none, none, none, none, none, none, none⟩

set_option maxRecDepth 8000 in
/-- C7 counterexample: with `personality_traits` NULL, the built prompt
contains the line "- Personality: None" — the f-string renders `None` and
`filter(None, ...)` does not remove the label-prefixed part — so the system
prompt does not skip null fields. -/
theorem C7_counterexample_null_field_rendered :
    novaAllNone.personality_traits = none ∧
    "- Personality: None" ∈ (promptParts novaAllNone).filter (fun s => s ≠ "") ∧
    buildSystemPrompt novaAllNone =
      "You are Nova, a character with the following traits:\n- Personality: None\n- Writing Style: None\n- Background: None\n- Knowledge Scope: None\n- Quirks: None\n- Emotional Range: None\n- Scenario: None\n- Language: None\nPlease embody this character fully in your responses. Be engaging and stay in character." := by
  refine ⟨rfl, by decide, by decide⟩

/-- C7 amended: the prompt always keeps every one of the ten parts — each
part starts with a non-empty label, so `filter(None, ...)` removes nothing;
NULL fields are rendered as "None" rather than skipped. -/
theorem C7_amended_prompt_keeps_all_parts (c : Character) :
    buildSystemPrompt c = String.intercalate "\n" (promptParts c) := by
  have hfilter : (promptParts c).filter (fun s => s ≠ "") = promptParts c := by
    apply List.filter_eq_self.mpr
    intro a ha
    simp only [promptParts, List.mem_cons, List.not_mem_nil, or_false] at ha
    rcases ha with rfl | rfl | rfl | rfl | rfl | rfl | rfl | rfl | rfl | rfl
    · exact decide_eq_true
        (append_ne_empty_left _ _ (data_append_ne_nil "You are " c.name (by decide)))
    · exact decide_eq_true (append_ne_empty_left _ _ (by decide))
    · exact decide_eq_true (append_ne_empty_left _ _ (by decide))
    · exact decide_eq_true (append_ne_empty_left _ _ (by decide))
    · exact decide_eq_true (append_ne_empty_left _ _ (by decide))
    · exact decide_eq_true (append_ne_empty_left _ _ (by decide))
    · exact decide_eq_true (append_ne_empty_left _ _ (by decide))
    · exact decide_eq_true (append_ne_empty_left _ _ (by decide))
    · exact decide_eq_true (append_ne_empty_left _ _ (by decide))
    · decide
  unfold buildSystemPrompt
  rw [hfilter]

/-- C8: both history formatters keep the length and order of the history,
map sender user to role "user" in both wire formats, map sender ai to
"model" (Gemini-style) and "assistant" (OpenAI-style), and carry each
message content over unchanged. -/
theorem C8_history_role_mapping (history : List Msg) (i : Nat) (m : Msg)
    (h : history[i]? = some m) :
    (formatHistory history).length = history.length ∧
    (formatHistoryForOpenai history).length = history.length ∧
    (m.sender = MessageSender.user →
      (formatHistory history)[i]? = some ⟨"user", [m.content]⟩ ∧
      (formatHistoryForOpenai history)[i]? = some ⟨"user", m.content⟩) ∧
    (m.sender = MessageSender.ai →
      (formatHistory history)[i]? = some ⟨"model", [m.content]⟩ ∧
      (formatHistoryForOpenai history)[i]? = some ⟨"assistant", m.content⟩) := by
  refine ⟨by simp [formatHistory], by simp [formatHistoryForOpenai], ?_, ?_⟩ <;>
  · intro hs
    constructor <;>
      simp [formatHistory, formatHistoryForOpenai, List.getElem?_map, h, hs]

/-- Closed witness for `C8_history_role_mapping` on a two-message history. -/
theorem C8_history_role_mapping_witness :
    ([⟨MessageSender.user, "hello"⟩, ⟨MessageSender.ai, "yo"⟩] : List Msg)[0]? =
      some ⟨MessageSender.user, "hello"⟩ ∧
    ((formatHistory [⟨MessageSender.user, "hello"⟩, ⟨MessageSender.ai, "yo"⟩]).length =
      ([⟨MessageSender.user, "hello"⟩, ⟨MessageSender.ai, "yo"⟩] : List Msg).length ∧
    (formatHistoryForOpenai [⟨MessageSender.user, "hello"⟩, ⟨MessageSender.ai, "yo"⟩]).length =
      ([⟨MessageSender.user, "hello"⟩, ⟨MessageSender.ai, "yo"⟩] : List Msg).length ∧
    ((⟨MessageSender.user, "hello"⟩ : Msg).sender = MessageSender.user →
      (formatHistory [⟨MessageSender.user, "hello"⟩, ⟨MessageSender.ai, "yo"⟩])[0]? =
        some ⟨"user", [(⟨MessageSender.user, "hello"⟩ : Msg).content]⟩ ∧
      (formatHistoryForOpenai [⟨MessageSender.user, "hello"⟩, ⟨MessageSender.ai, "yo"⟩])[0]? =
        some ⟨"user", (⟨MessageSender.user, "hello"⟩ : Msg).content⟩) ∧
    ((⟨MessageSender.user, "hello"⟩ : Msg).sender = MessageSender.ai →
      (formatHistory [⟨MessageSender.user, "hello"⟩, ⟨MessageSender.ai, "yo"⟩])[0]? =
        some ⟨"model", [(⟨MessageSender.user, "hello"⟩ : Msg).content]⟩ ∧
      (formatHistoryForOpenai [⟨MessageSender.user, "hello"⟩, ⟨MessageSender.ai, "yo"⟩])[0]? =
        some ⟨"assistant", (⟨MessageSender.user, "hello"⟩ : Msg).content⟩)) :=
  ⟨by decide,
    C8_history_role_mapping [⟨MessageSender.user, "hello"⟩, ⟨MessageSender.ai, "yo"⟩] 0
      ⟨MessageSender.user, "hello"⟩ (by decide)⟩

/-- C9: for every combination of configured credentials, the list of
available provider names is strictly sorted in ascending code-point order
(hence also duplicate-free), computed from the credential flags alone. -/
theorem C9_available_providers_sorted_nodup (g o r a f : Bool) :
    List.Pairwise (fun x y => strLtB x y = true)
      (get_available_providers ⟨g, o, r, a, f⟩) ∧
    (get_available_providers ⟨g, o, r, a, f⟩).Nodup := by
  cases g <;> cases o <;> cases r <;> cases a <;> cases f <;>
    exact ⟨by decide, by decide⟩

/-- Character "Rex" with a configured non-empty fallback response. -/
def rex : Character :=
  ⟨"Rex", none, none, none, none, none, none, none, none, none, none,
    some "Rex looks confused."⟩

/-- C2 counterexample: with a non-empty `fallback_response` configured, a
simulated timeout on the direct OpenAI provider yields its fixed OOC
timeout string, not the character fallback — the OpenAI provider never
consults `fallback_response`. -/
theorem C2_counterexample_openai_ignores_fallback :
    rex.fallback_response = some "Rex looks confused." ∧
    ApiOutcome.timeout.isFailure = true ∧
    (openAIGetResponse (some "k") rex [⟨MessageSender.user, "hi"⟩]
        ApiOutcome.timeout).1 =
      "(OOC: Sorry, my thoughts got lost in hyperspace... timed out!)" ∧
    (openAIGetResponse (some "k") rex [⟨MessageSender.user, "hi"⟩]
        ApiOutcome.timeout).1 ≠ "Rex looks confused." := by
  refine ⟨rfl, rfl, by decide, by decide⟩

/-- C2 amended: for every character with a non-empty `fallback_response`,
every simulated provider failure (timeout, rate limit, connection error,
non-2xx status, unexpected exception, or empty content) makes the Gemini
provider and the OpenRouter-family providers return exactly that fallback
string; the direct OpenAI provider instead returns its own generic OOC
strings. -/
theorem C2_failure_returns_fallback (apiKey : Option String) (c : Character)
    (history : List Msg) (out : ApiOutcome) (fb : String)
    (hfb : c.fallback_response = some fb) (hne : fb ≠ "")
    (hfail : out.isFailure = true) :
    (geminiGetResponse c history out).1 = fb ∧
    (baseOpenRouterGetResponse apiKey c history out).1 = fb := by
  have hemp : fb.isEmpty = false := by
    rcases h : fb.isEmpty with _ | _
    · rfl
    · exact absurd ((String.isEmpty_iff fb).mp h) hne
  have hfo : ∀ d, fallbackOr c d = fb := by
    intro d
    unfold fallbackOr pyOr
    rw [hfb]
    simp [hemp]
  cases out with
  | success content =>
      have hc : content.isEmpty = true := hfail
      cases hkey : pyTruthy apiKey <;>
        simp [geminiGetResponse, baseOpenRouterGetResponse, hkey, hc, hfo]
  | timeout =>
      cases hkey : pyTruthy apiKey <;>
        simp [geminiGetResponse, baseOpenRouterGetResponse, hkey, hfo]
  | connectionError =>
      cases hkey : pyTruthy apiKey <;>
        simp [geminiGetResponse, baseOpenRouterGetResponse, hkey, hfo]
  | rateLimit =>
      cases hkey : pyTruthy apiKey <;>
        simp [geminiGetResponse, baseOpenRouterGetResponse, hkey, hfo]
  | statusError code =>
      cases hkey : pyTruthy apiKey <;>
        simp [geminiGetResponse, baseOpenRouterGetResponse, hkey, hfo]
  | exception =>
      cases hkey : pyTruthy apiKey <;>
        simp [geminiGetResponse, baseOpenRouterGetResponse, hkey, hfo]

/-- Closed witness for `C2_failure_returns_fallback`: Rex with a timeout. -/
theorem C2_failure_returns_fallback_witness :
    (rex.fallback_response = some "Rex looks confused." ∧
      "Rex looks confused." ≠ "" ∧
      ApiOutcome.timeout.isFailure = true) ∧
    ((geminiGetResponse rex [⟨MessageSender.user, "hi"⟩] ApiOutcome.timeout).1 =
      "Rex looks confused." ∧
    (baseOpenRouterGetResponse (some "k") rex [⟨MessageSender.user, "hi"⟩]
        ApiOutcome.timeout).1 = "Rex looks confused.") :=
  ⟨⟨rfl, by decide, rfl⟩,
    C2_failure_returns_fallback (some "k") rex [⟨MessageSender.user, "hi"⟩]
      ApiOutcome.timeout "Rex looks confused." rfl (by decide) rfl⟩

/-- Character "Greta" with a greeting message and no fallback. -/
def greta : Character :=
  ⟨"Greta", none, some "Hello, I\x27m Greta!", none, none, none, none, none,
    none, none, none, none⟩

/-- C3 counterexample: on an empty history (zero user-sent messages) the
current OpenRouter-family provider performs its one transport call and does
not return the greeting — the greeting short-circuit exists only in the
deprecated old OpenRouter provider and in the FPT provider. -/
theorem C3_counterexample_base_openrouter_calls_api :
    greta.greeting_message = some "Hello, I\x27m Greta!" ∧
    (baseOpenRouterGetResponse (some "k") greta [] ApiOutcome.timeout).2 = 1 ∧
    (baseOpenRouterGetResponse (some "k") greta [] ApiOutcome.timeout).1 ≠
      "Hello, I\x27m Greta!" := by
  refine ⟨rfl, by decide, by decide⟩

/-- C3 amended: on a history with zero user-sent messages, the deprecated
old OpenRouter provider and the FPT provider return
`greeting_message or` the default name-based greeting, with zero transport
calls, whatever
the transport would have answered; the current OpenRouter-family provider
instead performs its transport call whenever its api key is truthy. -/
theorem C3_no_user_message_greeting (c : Character) (history : List Msg)
    (out : ApiOutcome) (apiKey : Option String)
    (hu : ∀ m ∈ history, m.sender ≠ MessageSender.user) :
    oldOpenRouterGetResponse c history out = (greetingOr c, 0) ∧
    fptaiGetResponse c history out = (greetingOr c, 0) ∧
    (pyTruthy apiKey = true →
      (baseOpenRouterGetResponse apiKey c history out).2 = 1) := by
  have hfind : lastUserMessageContent history = none := by
    unfold lastUserMessageContent
    rw [List.find?_eq_none.mpr]
    · rfl
    · intro m hm
      have hms := hu m (List.mem_reverse.mp hm)
      simp [hms]
  refine ⟨?_, ?_, ?_⟩
  · unfold oldOpenRouterGetResponse
    rw [hfind]
    rfl
  · unfold fptaiGetResponse
    rw [hfind]
    rfl
  · intro hkey
    unfold baseOpenRouterGetResponse
    rw [hkey]
    cases out <;> simp

/-- Closed witness for `C3_no_user_message_greeting`: Greta with an
ai-only history. -/
theorem C3_no_user_message_greeting_witness :
    (∀ m ∈ ([⟨MessageSender.ai, "Initial greeting"⟩] : List Msg),
      m.sender ≠ MessageSender.user) ∧
    (oldOpenRouterGetResponse greta [⟨MessageSender.ai, "Initial greeting"⟩]
        ApiOutcome.timeout = (greetingOr greta, 0) ∧
      fptaiGetResponse greta [⟨MessageSender.ai, "Initial greeting"⟩]
        ApiOutcome.timeout = (greetingOr greta, 0) ∧
      (pyTruthy (some "k") = true →
        (baseOpenRouterGetResponse (some "k") greta
          [⟨MessageSender.ai, "Initial greeting"⟩] ApiOutcome.timeout).2 = 1)) :=
  ⟨by decide,
    C3_no_user_message_greeting greta [⟨MessageSender.ai, "Initial greeting"⟩]
      ApiOutcome.timeout (some "k") (by decide)⟩

/-- C1 counterexample: when the resolved provider is the Claude provider,
`get_ai_response` does not return a string — the `NotImplementedError`
raised by `ClaudeProvider.get_response` propagates, because only the
`get_ai_provider` call is inside the `try` block. -/
theorem C1_counterexample_claude_raises :
    get_ai_response (PyResult.ok ⟨ProviderKind.claude, some "k"⟩) rex []
        (ApiOutcome.success "hi") =
      PyResult.exc "NotImplementedError: Claude provider is not yet implemented." := by
  rfl

/-- C1 amended: `get_ai_response` returns a string for every provider
resolution failure (character fallback contract) and for every resolved
provider other than the Claude provider; the Claude
unimplemented Claude `get_response` raises and the exception propagates to the
caller rather than being converted to a fallback string. -/
theorem C1_get_ai_response_total_except_claude (providerResult : PyResult ProviderInst)
    (c : Character) (history : List Msg) (out : ApiOutcome)
    (h : ∀ p : ProviderInst, providerResult = PyResult.ok p →
      p.kind ≠ ProviderKind.claude) :
    (get_ai_response providerResult c history out).isOk = true := by
  cases providerResult with
  | exc e => rfl
  | ok p =>
      obtain ⟨kind, key⟩ := p
      cases kind with
      | claude => exact absurd rfl (h ⟨ProviderKind.claude, key⟩ rfl)
      | gemini => rfl
      | openai => rfl
      | fptai => rfl
      | deepseekR1 => rfl
      | sarvam => rfl
      | deepseekChat => rfl
      | qwen3 => rfl
      | gemma3 => rfl

/-- Closed witness for `C1_get_ai_response_total_except_claude` with a
resolved Gemini provider. -/
theorem C1_get_ai_response_total_except_claude_witness :
    (∀ p : ProviderInst,
      (PyResult.ok ⟨ProviderKind.gemini, none⟩ : PyResult ProviderInst) =
        PyResult.ok p → p.kind ≠ ProviderKind.claude) ∧
    (get_ai_response (PyResult.ok ⟨ProviderKind.gemini, none⟩) rex []
      ApiOutcome.timeout).isOk = true :=
  ⟨fun p hp => by cases hp; decide,
    C1_get_ai_response_total_except_claude
      (PyResult.ok ⟨ProviderKind.gemini, none⟩) rex [] ApiOutcome.timeout
      (fun p hp => by cases hp; decide)⟩

/-- C4: evaluation at the failing input.  With the stored config row absent
(or holding an unsupported name) and `settings.DEFAULT_AI_PROVIDER` equal to
the supported name "openai", the selection loop — which has no break, so
the hardcoded fallback overwrites the configured default — persists and
returns "gemini"; the specified rule "first supported of (configured default,
hardcoded fallback)" rule would give "openai". -/
theorem C4_default_loop_ignores_settings :
    getActiveProviderNameFromDb "openai" ⟨none⟩ = ("gemini", ⟨some "gemini"⟩) ∧
    getActiveProviderNameFromDb "openai" ⟨some "bogus"⟩ =
      ("gemini", ⟨some "gemini"⟩) ∧
    "openai" ∈ SUPPORTED_PROVIDER_NAMES ∧
    chooseDefaultSpec "openai" = "openai" ∧
    chooseDefaultToSet "openai" ≠ chooseDefaultSpec "openai" := by
  refine ⟨by decide, by decide, by decide, by decide, by decide⟩

/-- C5: `set_active_provider` on a name that is unsupported, or supported
but lacking its credential, raises and leaves the persisted configuration
unchanged. -/
theorem C5_set_active_provider_rejects (name : String) (s : Creds) (db : DbState)
    (h : name ∉ SUPPORTED_PROVIDER_NAMES ∨ name ∉ get_available_providers s) :
    (set_active_provider name s db).1.isOk = false ∧
    (set_active_provider name s db).2 = db := by
  unfold set_active_provider
  by_cases h1 : name ∈ SUPPORTED_PROVIDER_NAMES
  · have h2 : name ∉ get_available_providers s := by
      rcases h with h | h
      · exact absurd h1 h
      · exact h
    simp [h1, h2, PyResult.isOk]
  · simp [h1, PyResult.isOk]

/-- Closed witness for `C5_set_active_provider_rejects`: "claude" is
supported but no credential is configured. -/
theorem C5_set_active_provider_rejects_witness :
    ("claude" ∉ SUPPORTED_PROVIDER_NAMES ∨
      "claude" ∉ get_available_providers ⟨false, false, false, false, false⟩) ∧
    ((set_active_provider "claude" ⟨false, false, false, false, false⟩
        ⟨some "gemini"⟩).1.isOk = false ∧
      (set_active_provider "claude" ⟨false, false, false, false, false⟩
        ⟨some "gemini"⟩).2 = ⟨some "gemini"⟩) :=
  ⟨Or.inr (by decide),
    C5_set_active_provider_rejects "claude" ⟨false, false, false, false, false⟩
      ⟨some "gemini"⟩ (Or.inr (by decide))⟩

/-- Route behaviour when the conversation id is absent. -/
theorem delete_route_none (db : ConvDb) (u cid : Nat)
    (hn : get_conversation db cid = none) :
    delete_conversation_route db u cid = (DeleteOutcome.noContent, db) := by
  unfold delete_conversation_route
  rw [hn]

/-- Route behaviour when the conversation exists and is owned by the
caller. -/
theorem delete_route_owner (db : ConvDb) (u cid : Nat) (conv : Conv)
    (hs : get_conversation db cid = some conv) (hown : conv.userId = u) :
    delete_conversation_route db u cid =
      (DeleteOutcome.noContent, delete_conversation db cid) := by
  unfold delete_conversation_route
  rw [hs]
  simp [hown]

/-- Route behaviour when the conversation exists but belongs to another
user. -/
theorem delete_route_forbidden (db : ConvDb) (u cid : Nat) (conv : Conv)
    (hs : get_conversation db cid = some conv) (hown : conv.userId ≠ u) :
    delete_conversation_route db u cid = (DeleteOutcome.forbidden, db) := by
  unfold delete_conversation_route
  rw [hs]
  simp [hown]

/-- After a deletion, lookup of the same id finds nothing. -/
theorem get_conversation_after_delete (db : ConvDb) (cid : Nat) :
    get_conversation (delete_conversation db cid) cid = none := by
  unfold get_conversation delete_conversation
  rw [List.find?_eq_none]
  intro x hx
  have hxm := (List.mem_filter.mp hx).2
  simpa using hxm

/-- C10: deleting a conversation is idempotent at the route level: a
missing id yields 204 with the database unchanged, and when a delete
reports 204, deleting the same id again also reports 204 and leaves the
post-delete state unchanged. -/
theorem C10_delete_conversation_idempotent (db : ConvDb) (u cid : Nat)
    (h : (delete_conversation_route db u cid).1 = DeleteOutcome.noContent) :
    (get_conversation db cid = none →
      delete_conversation_route db u cid = (DeleteOutcome.noContent, db)) ∧
    delete_conversation_route (delete_conversation_route db u cid).2 u cid =
      (DeleteOutcome.noContent, (delete_conversation_route db u cid).2) := by
  refine ⟨delete_route_none db u cid, ?_⟩
  rcases hg : get_conversation db cid with _ | conv
  · rw [delete_route_none db u cid hg]
    exact delete_route_none db u cid hg
  · by_cases hown : conv.userId = u
    · rw [delete_route_owner db u cid conv hg hown]
      exact delete_route_none (delete_conversation db cid) u cid
        (get_conversation_after_delete db cid)
    · rw [delete_route_forbidden db u cid conv hg hown] at h
      exact absurd h (by simp)

/-- Closed witness for `C10_delete_conversation_idempotent`: a database with
one conversation owned by the calling user. -/
theorem C10_delete_conversation_idempotent_witness :
    (delete_conversation_route ⟨[⟨1, 7⟩]⟩ 7 1).1 = DeleteOutcome.noContent ∧
    ((get_conversation ⟨[⟨1, 7⟩]⟩ 1 = none →
      delete_conversation_route ⟨[⟨1, 7⟩]⟩ 7 1 =
        (DeleteOutcome.noContent, ⟨[⟨1, 7⟩]⟩)) ∧
    delete_conversation_route (delete_conversation_route ⟨[⟨1, 7⟩]⟩ 7 1).2 7 1 =
      (DeleteOutcome.noContent, (delete_conversation_route ⟨[⟨1, 7⟩]⟩ 7 1).2)) :=
  ⟨by decide, C10_delete_conversation_idempotent ⟨[⟨1, 7⟩]⟩ 7 1 (by decide)⟩
